import Mathlib

/-!
Verification of the HTTP retry/backoff client of the
riot-multi-game-persona-platform repository.

Two client implementations exist in the repository.  The older one,
`RiotClient` in `scripts/riot_client.py`, is embedded below from its source.
The newer one, `RiotAPIClient` (the one exercised by
`tests/test_riot_client.py`, which imports `RiotAPIClient`, `RiotAPIConfig`
and passes `session`, `max_retries`, `backoff_factor`), is not present in the
source tree; its behaviour is modelled from the specification, as marked on
each definition.
-/

/-- JSON values, the bodies carried by responses.  Numeric payloads are
modelled as integers; no claim depends on fractional JSON numbers. -/
inductive Json where
  | null : Json
  | bool (b : Bool) : Json
  | num (n : Int) : Json
  | str (s : String) : Json
  | arr (xs : List Json) : Json
  | obj (kvs : List (String × Json)) : Json

/-- Checks whether the pattern list is an initial segment of the other list. -/
def startsWithL : List Char → List Char → Bool
  | [], _ => true
  | _ :: _, [] => false
  | c :: cs, d :: ds => c == d && startsWithL cs ds

/-- Substring search on character lists: does `pat` occur contiguously in the
second list?  Models the Python `pat in s` test on strings. -/
def hasSubL (pat : List Char) : List Char → Bool
  | [] => pat.isEmpty
  | c :: rest => startsWithL pat (c :: rest) || hasSubL pat rest

/-- String containment, Python's `pat in s`. -/
def containsSub (pat s : String) : Bool :=
  hasSubL pat.toList s.toList

/- ---------------------------------------------------------------------
Spec-modelled client: RiotAPIClient / RiotAPIConfig
--------------------------------------------------------------------- -/

/-- Modelled from the spec: the error taxonomy of §7 for the missing
`RiotAPIClient`.  `configError` covers missing/invalid credentials and
unsupported routing targets (raised as a `ValueError`-class error in the
tests); `transportError` wraps a network-level cause; the two HTTP error
variants carry status code and response body text. -/
inductive ApiError where
  | configError (msg : String) : ApiError
  | transportError (cause : String) : ApiError
  | retryableServerError (status : Nat) (bodyText : String) : ApiError
  | fatalClientError (status : Nat) (bodyText : String) : ApiError

/-- Modelled from the spec: an HTTP response as seen by the missing
`RiotAPIClient`.  `retryAfter` is the raw `Retry-After` header when present,
`body` the JSON value a mock transport was fed, `bodyText` the body text. -/
structure Response where
  status : Nat
  retryAfter : Option String
  body : Json
  bodyText : String

/-- Modelled from the spec: one result of the underlying transport — either a
response, or a transport-level failure before any response. -/
inductive TransportEvent where
  | response (r : Response) : TransportEvent
  | transportError (cause : String) : TransportEvent

/-- Modelled from the spec: configuration of the missing `RiotAPIClient`
(api key, regional routing code, per-game platform codes). -/
structure RiotAPIConfig where
  api_key : String
  region : String
  platform_by_game : List (String × String)

/-- Modelled from the spec: the explicit constructor of `RiotAPIConfig`;
a missing (empty) api key is a fatal construction error (§3). -/
def RiotAPIConfig.make (api_key region : String)
    (platform_by_game : List (String × String)) :
    Except ApiError RiotAPIConfig :=
  if api_key = "" then
    .error (.configError "missing api_key")
  else
    .ok ⟨api_key, region, platform_by_game⟩

/-- Modelled from the spec: `fromEnvironment()` of the missing
`RiotAPIConfig` — the api key is required (ConfigError when absent or
empty), region defaults to "asia", the per-game platform codes default to
known values (§4.1).  The environment is passed in as a lookup function. -/
def RiotAPIConfig.fromEnvironment (env : String → Option String) :
    Except ApiError RiotAPIConfig :=
  match env "RIOT_API_KEY" with
  | none => .error (.configError "RIOT_API_KEY is not set")
  | some k =>
    if k = "" then
      .error (.configError "RIOT_API_KEY is empty")
    else
      .ok ⟨k, ((env "RIOT_REGION").getD "asia"),
        [("lol", (env "RIOT_LOL_PLATFORM").getD "kr"),
         ("tft", (env "RIOT_TFT_PLATFORM").getD "ap")]⟩

/-- Modelled from the spec: the missing `RiotAPIClient` — an immutable
config plus the retry parameters the tests inject (`max_retries`,
`backoff_factor`, `timeout`).  Durations are rationals. -/
structure RiotAPIClient where
  config : RiotAPIConfig
  max_retries : Nat
  backoff_factor : ℚ
  timeout : ℚ

/-- Modelled from the spec: the routing mode of §3 — shared regional base
URL, or a per-game platform base URL. -/
inductive RoutingMode where
  | regional : RoutingMode
  | platform (game : String) : RoutingMode

/-- Modelled from the spec: base-URL resolution (§4.1, §4.2 step 1).  An
unsupported game name is an immediate validation failure. -/
def resolveBaseUrl (cfg : RiotAPIConfig) : RoutingMode → Except ApiError String
  | .regional => .ok ("https://" ++ cfg.region ++ ".api.riotgames.com")
  | .platform game =>
    match cfg.platform_by_game.lookup game with
    | some code => .ok ("https://" ++ code ++ ".api.riotgames.com")
    | none => .error (.configError ("unsupported game: " ++ game))

/-- Modelled from the spec: classification of §4.2 step c — the retryable
statuses are exactly 429, 500, 502, 503, 504. -/
def isRetryableStatus (s : Nat) : Bool :=
  s == 429 || s == 500 || s == 502 || s == 503 || s == 504

/-- Modelled from the spec: the `Retry-After` header is used when present
and parseable; parseable means a non-empty string of decimal digits, the
delta-seconds form of the HTTP header. -/
def parseRetryAfter (h : String) : Option Nat :=
  if h.toList ≠ [] ∧ h.toList.all Char.isDigit then
    some (h.toList.foldl (fun acc d => acc * 10 + (d.toNat - 48)) 0)
  else
    none

/-- Modelled from the spec: the wait before a retry (§4.2 step c):
`max(Retry-After value if present and parseable, backoff_factor * 2^attempt)`,
and the pure exponential backoff when the header is absent or unparseable. -/
def backoffWait (backoff_factor : ℚ) (attempt : Nat)
    (retryAfter : Option String) : ℚ :=
  match retryAfter with
  | none => backoff_factor * 2 ^ attempt
  | some h =>
    match parseRetryAfter h with
    | none => backoff_factor * 2 ^ attempt
    | some n => max (n : ℚ) (backoff_factor * 2 ^ attempt)

/-- Observable outcome of one call of the client: the returned-or-raised
result, the number of HTTP requests issued, and the durations passed to
sleep, in order. -/
structure RunResult where
  result : Except ApiError Json
  requests : Nat
  sleeps : List ℚ

/-- Modelled from the spec: the retry loop of §4.2 step 3.  `attempt` is the
0-based attempt index, `fuel` the number of retries still allowed
(`max_retries - attempt`); the transport gives the event of each attempt.
On a 2xx response the parsed JSON body is returned; on a retryable status
the client sleeps `backoffWait` and retries while attempts remain, else
raises with status and body text; any other non-2xx status raises
immediately; a transport failure is retried like a retryable status with
the pure exponential wait, else raised wrapped. -/
def loopAux (bf : ℚ) (t : Nat → TransportEvent) : Nat → Nat → RunResult
  | attempt, 0 =>
    match t attempt with
    | .transportError c => ⟨.error (.transportError c), 1, []⟩
    | .response r =>
      if 200 ≤ r.status ∧ r.status < 300 then
        ⟨.ok r.body, 1, []⟩
      else if isRetryableStatus r.status then
        ⟨.error (.retryableServerError r.status r.bodyText), 1, []⟩
      else
        ⟨.error (.fatalClientError r.status r.bodyText), 1, []⟩
  | attempt, fuel + 1 =>
    match t attempt with
    | .transportError _ =>
      let rest := loopAux bf t (attempt + 1) fuel
      ⟨rest.result, rest.requests + 1, (bf * 2 ^ attempt) :: rest.sleeps⟩
    | .response r =>
      if 200 ≤ r.status ∧ r.status < 300 then
        ⟨.ok r.body, 1, []⟩
      else if isRetryableStatus r.status then
        let rest := loopAux bf t (attempt + 1) fuel
        ⟨rest.result, rest.requests + 1,
          backoffWait bf attempt r.retryAfter :: rest.sleeps⟩
      else
        ⟨.error (.fatalClientError r.status r.bodyText), 1, []⟩

/-- Modelled from the spec: `_request`, the shared retry core — the loop of
§4.2 starting at attempt 0 with the full retry budget. -/
def RiotAPIClient_request (c : RiotAPIClient) (t : Nat → TransportEvent) :
    RunResult :=
  loopAux c.backoff_factor t 0 c.max_retries

/-- Modelled from the spec: `get(path, routing)` — resolve the base URL from
the routing mode first (an unsupported game fails with no request issued and
no sleep), then run the retry loop. -/
def RiotAPIClient_get (c : RiotAPIClient) (path : String)
    (routing : RoutingMode) (t : Nat → TransportEvent) : RunResult :=
  match resolveBaseUrl c.config routing with
  | .error e => ⟨.error e, 0, []⟩
  | .ok _base => RiotAPIClient_request c t

/- ---------------------------------------------------------------------
Source-embedded client: RiotClient (scripts/riot_client.py)
--------------------------------------------------------------------- -/

/-- Configuration dataclass `RiotConfig` of `scripts/riot_client.py`
(defaults as in the source). -/
structure RiotConfig where
  api_key : String
  region : String := "asia"
  lol_platform : String := "kr"
  tft_platform : String := "ap"
  timeout : Nat := 10
  max_retries : Nat := 3

/-- A `requests.Response` as consumed by `RiotClient._request`: status code,
the `Retry-After` header (`resp.headers.get`), the `Content-Type` header
(defaulting to the empty string), the parsed JSON body (`resp.json()`) and
the body text (`resp.text`). -/
structure PyResponse where
  status_code : Nat
  retry_after : Option String
  content_type : String
  body_json : Json
  text : String

/-- The `ok` property of `requests.Response`: true for every status code
below 400. -/
def PyResponse.ok (r : PyResponse) : Bool :=
  r.status_code < 400

/-- One result of `self.session.request`: a response, or a
`requests.RequestException`. -/
inductive PyEvent where
  | response (r : PyResponse) : PyEvent
  | requestException (msg : String) : PyEvent

/-- A value returned by `_request`: the parsed JSON body, or the raw body
text when the Content-Type is not JSON. -/
inductive PyOutcome where
  | json (j : Json) : PyOutcome
  | text (s : String) : PyOutcome

/-- An exception escaping `_request`: a `RiotAPIError` (message and optional
status code), or the `ValueError` that `int()` raises on an unparseable
`Retry-After` header, which no handler in `_request` catches. -/
inductive PyErr where
  | riotAPIError (message : String) (status_code : Option Nat) : PyErr
  | valueError (message : String) : PyErr

/-- The value of the `last_exc` local of `_request`: the last exception
caught by the `except (requests.RequestException, RiotAPIError)` handler. -/
inductive LastExc where
  | requestException (msg : String) : LastExc
  | riotAPIError (message : String) (status_code : Option Nat) : LastExc

/-- Observable outcome of one `_request` call: result, number of
`session.request` calls, and the arguments of the `time.sleep` calls in
order (integers: `int(Retry-After)` or `2 ** attempt`). -/
structure PyRunResult where
  result : Except PyErr PyOutcome
  requests : Nat
  sleeps : List Int

/-- Python's `int(s)` on a string: surrounding whitespace allowed, optional
sign, then decimal digits (digit-group underscores are not modelled; no
claim depends on them). -/
def pyInt? (s : String) : Option Int :=
  let cs := ((s.toList.dropWhile Char.isWhitespace).reverse.dropWhile
    Char.isWhitespace).reverse
  match cs with
  | [] => none
  | c :: rest =>
    let signed : Bool × List Char :=
      if c = '-' then (true, rest)
      else if c = '+' then (false, rest) else (false, c :: rest)
    if signed.2 ≠ [] ∧ signed.2.all Char.isDigit then
      let n : Nat := signed.2.foldl (fun acc d => acc * 10 + (d.toNat - 48)) 0
      some (if signed.1 then -(n : Int) else (n : Int))
    else
      none

/-- The raise after the loop of `_request` (lines 179-182): re-raise
`last_exc` when it is a `RiotAPIError`, else wrap it in a new
`RiotAPIError` without a status code. -/
def finalRaise : Option LastExc → PyErr
  | some (.riotAPIError m s) => .riotAPIError m s
  | some (.requestException m) =>
    .riotAPIError ("Riot API 요청 반복 실패: " ++ m) none
  | none => .riotAPIError "Riot API 요청 반복 실패: None" none

/-- The message of the `RiotAPIError` raised on a non-ok status
(line 161-164): status code and the first 200 characters of the body. -/
def nonOkMessage (r : PyResponse) : String :=
  "Riot API 요청 실패: " ++ toString r.status_code ++ " " ++ (r.text.take 200)

/-- The body of the `for attempt in range(1, max_retries + 1)` loop of
`RiotClient._request`, embedded with `attempt` the 1-based index and `fuel`
the number of loop iterations that remain after the current one
(`max_retries - attempt`).  The transport gives the result of the i-th
`session.request` call (0-based).  Branches in source order: status 429
sleeps `int(Retry-After)` when the header is truthy (an unparseable value
raises an uncaught `ValueError`) else `2 ** attempt`, then continues — even
on the last iteration; any 5xx sleeps `2 ** attempt` and continues — even on
the last iteration; any other non-ok status raises `RiotAPIError`, which the
handler catches into `last_exc` and retries after a sleep only when
`attempt < max_retries`; an ok status returns the JSON body when the
Content-Type contains "application/json", else the body text; a
`requests.RequestException` is caught like the `RiotAPIError`. -/
def RiotClient_requestAux (t : Nat → PyEvent) :
    Nat → Nat → Option LastExc → PyRunResult
  | attempt, 0, lastExc =>
    match t (attempt - 1) with
    | .requestException m =>
      ⟨.error (finalRaise (some (.requestException m))), 1, []⟩
    | .response r =>
      if r.status_code == 429 then
        match r.retry_after with
        | some ra =>
          if ra = "" then
            ⟨.error (finalRaise lastExc), 1, [(2 : Int) ^ attempt]⟩
          else
            match pyInt? ra with
            | none =>
              ⟨.error (.valueError ("invalid literal for int: " ++ ra)), 1, []⟩
            | some n => ⟨.error (finalRaise lastExc), 1, [n]⟩
        | none => ⟨.error (finalRaise lastExc), 1, [(2 : Int) ^ attempt]⟩
      else if 500 ≤ r.status_code ∧ r.status_code < 600 then
        ⟨.error (finalRaise lastExc), 1, [(2 : Int) ^ attempt]⟩
      else if !r.ok then
        ⟨.error (finalRaise
          (some (.riotAPIError (nonOkMessage r) (some r.status_code)))), 1, []⟩
      else if containsSub "application/json" r.content_type then
        ⟨.ok (.json r.body_json), 1, []⟩
      else
        ⟨.ok (.text r.text), 1, []⟩
  | attempt, fuel + 1, lastExc =>
    match t (attempt - 1) with
    | .requestException m =>
      let rest := RiotClient_requestAux t (attempt + 1) fuel
        (some (.requestException m))
      ⟨rest.result, rest.requests + 1, ((2 : Int) ^ attempt) :: rest.sleeps⟩
    | .response r =>
      if r.status_code == 429 then
        match r.retry_after with
        | some ra =>
          if ra = "" then
            let rest := RiotClient_requestAux t (attempt + 1) fuel lastExc
            ⟨rest.result, rest.requests + 1,
              ((2 : Int) ^ attempt) :: rest.sleeps⟩
          else
            match pyInt? ra with
            | none =>
              ⟨.error (.valueError ("invalid literal for int: " ++ ra)), 1, []⟩
            | some n =>
              let rest := RiotClient_requestAux t (attempt + 1) fuel lastExc
              ⟨rest.result, rest.requests + 1, n :: rest.sleeps⟩
        | none =>
          let rest := RiotClient_requestAux t (attempt + 1) fuel lastExc
          ⟨rest.result, rest.requests + 1, ((2 : Int) ^ attempt) :: rest.sleeps⟩
      else if 500 ≤ r.status_code ∧ r.status_code < 600 then
        let rest := RiotClient_requestAux t (attempt + 1) fuel lastExc
        ⟨rest.result, rest.requests + 1, ((2 : Int) ^ attempt) :: rest.sleeps⟩
      else if !r.ok then
        let rest := RiotClient_requestAux t (attempt + 1) fuel
          (some (.riotAPIError (nonOkMessage r) (some r.status_code)))
        ⟨rest.result, rest.requests + 1, ((2 : Int) ^ attempt) :: rest.sleeps⟩
      else if containsSub "application/json" r.content_type then
        ⟨.ok (.json r.body_json), 1, []⟩
      else
        ⟨.ok (.text r.text), 1, []⟩

/-- `RiotClient._request` of `scripts/riot_client.py`: run the loop from
attempt 1 with `max_retries - 1` further iterations allowed; when
`max_retries = 0` the loop body never runs and line 182 raises with
`last_exc = None`. -/
def RiotClient_request (cfg : RiotConfig) (t : Nat → PyEvent) : PyRunResult :=
  match cfg.max_retries with
  | 0 => ⟨.error (finalRaise none), 0, []⟩
  | fuel + 1 => RiotClient_requestAux t 1 fuel none

/- ---------------------------------------------------------------------
Helper lemmas about the spec-modelled retry loop
--------------------------------------------------------------------- -/

/-- A retryable status is never a 2xx status. -/
theorem not_2xx_of_retryable {s : Nat} (h : isRetryableStatus s = true) :
    ¬(200 ≤ s ∧ s < 300) := by
  simp only [isRetryableStatus, Bool.or_eq_true, beq_iff_eq] at h
  omega

/-- Every run of the loop issues at least one request. -/
theorem loopAux_requests_pos (bf : ℚ) (t : Nat → TransportEvent) :
    ∀ fuel attempt, 1 ≤ (loopAux bf t attempt fuel).requests := by
  intro fuel attempt
  cases fuel with
  | zero =>
    cases h : t attempt with
    | transportError c => simp [loopAux, h]
    | response r =>
      simp only [loopAux, h]
      split_ifs <;> simp
  | succ f =>
    cases h : t attempt with
    | transportError c => simp [loopAux, h]
    | response r =>
      simp only [loopAux, h]
      split_ifs <;> simp

/-- The loop issues at most `fuel + 1` requests. -/
theorem loopAux_requests_le (bf : ℚ) (t : Nat → TransportEvent) :
    ∀ fuel attempt, (loopAux bf t attempt fuel).requests ≤ fuel + 1 := by
  intro fuel
  induction fuel with
  | zero =>
    intro attempt
    cases h : t attempt with
    | transportError c => simp [loopAux, h]
    | response r =>
      simp only [loopAux, h]
      split_ifs <;> simp
  | succ f ih =>
    intro attempt
    have hih := ih (attempt + 1)
    cases h : t attempt with
    | transportError c =>
      simp only [loopAux, h]
      omega
    | response r =>
      simp only [loopAux, h]
      split_ifs <;> simp <;> omega

/-- With a non-negative backoff factor, every computed wait is non-negative,
including waits taken from a `Retry-After` header. -/
theorem backoffWait_nonneg (bf : ℚ) (attempt : Nat) (ra : Option String)
    (hbf : 0 ≤ bf) : 0 ≤ backoffWait bf attempt ra := by
  have hbase : 0 ≤ bf * 2 ^ attempt :=
    mul_nonneg hbf (pow_nonneg (by norm_num) _)
  cases ra with
  | none => simpa only [backoffWait] using hbase
  | some h =>
    cases hp : parseRetryAfter h with
    | none => simpa only [backoffWait, hp] using hbase
    | some n =>
      simp only [backoffWait, hp]
      exact le_max_of_le_right hbase

/-- With a non-negative backoff factor, every duration the loop sleeps is
non-negative. -/
theorem loopAux_sleeps_nonneg (bf : ℚ) (t : Nat → TransportEvent)
    (hbf : 0 ≤ bf) :
    ∀ fuel attempt w, w ∈ (loopAux bf t attempt fuel).sleeps → 0 ≤ w := by
  intro fuel
  induction fuel with
  | zero =>
    intro attempt w hw
    cases h : t attempt with
    | transportError c => simp [loopAux, h] at hw
    | response r =>
      simp only [loopAux, h] at hw
      split_ifs at hw <;> simp at hw
  | succ f ih =>
    intro attempt w hw
    cases h : t attempt with
    | transportError c =>
      simp only [loopAux, h, List.mem_cons] at hw
      rcases hw with h1 | h2
      · exact h1 ▸ mul_nonneg hbf (pow_nonneg (by norm_num) _)
      · exact ih (attempt + 1) w h2
    | response r =>
      simp only [loopAux, h] at hw
      split_ifs at hw with h1 h2
      · simp at hw
      · simp only [List.mem_cons] at hw
        rcases hw with h3 | h4
        · exact h3 ▸ backoffWait_nonneg bf attempt r.retryAfter hbf
        · exact ih (attempt + 1) w h4
      · simp at hw

/-- When every attempt up to the budget receives a retryable response, the
loop issues exactly `fuel + 1` requests and ends in a
`retryableServerError` carrying the last response's status and body. -/
theorem loopAux_all_retryable (bf : ℚ) (t : Nat → TransportEvent) :
    ∀ fuel attempt,
      (∀ i, attempt ≤ i → i ≤ attempt + fuel →
        ∃ r, t i = .response r ∧ isRetryableStatus r.status = true) →
      ∃ r, t (attempt + fuel) = .response r ∧
        (loopAux bf t attempt fuel).requests = fuel + 1 ∧
        (loopAux bf t attempt fuel).result =
          .error (.retryableServerError r.status r.bodyText) := by
  intro fuel
  induction fuel with
  | zero =>
    intro attempt h
    obtain ⟨r, hr, hret⟩ := h attempt le_rfl (by omega)
    refine ⟨r, by simpa using hr, ?_, ?_⟩
    · simp only [loopAux, hr]
      rw [if_neg (not_2xx_of_retryable hret), if_pos hret]
    · simp only [loopAux, hr]
      rw [if_neg (not_2xx_of_retryable hret), if_pos hret]
  | succ f ih =>
    intro attempt h
    obtain ⟨r, hr, hret⟩ := h attempt le_rfl (by omega)
    obtain ⟨rl, hrl, hreq, hres⟩ :=
      ih (attempt + 1) (fun i hi1 hi2 => h i (by omega) (by omega))
    have hshift : attempt + 1 + f = attempt + (f + 1) := by omega
    refine ⟨rl, by rwa [hshift] at hrl, ?_, ?_⟩
    · simp only [loopAux, hr]
      rw [if_neg (not_2xx_of_retryable hret), if_pos hret]
      simp [hreq]
    · simp only [loopAux, hr]
      rw [if_neg (not_2xx_of_retryable hret), if_pos hret]
      simpa using hres

/-- When the responses at offsets 0..k from the current attempt are all
retryable, further attempts remain beyond them and the next response is
2xx, the loop issues `k + 2` requests and sleeps exactly once per failed
attempt, the i-th slept duration being `backoffWait` at the global attempt
index. -/
theorem loopAux_retryable_prefix (bf : ℚ) (t : Nat → TransportEvent) :
    ∀ k f a, k ≤ f →
      (∀ i, i ≤ k → ∃ r, t (a + i) = .response r ∧
        isRetryableStatus r.status = true) →
      (∃ r1, t (a + k + 1) = .response r1 ∧ 200 ≤ r1.status ∧
        r1.status < 300) →
      (loopAux bf t a (f + 1)).requests = k + 2 ∧
        (loopAux bf t a (f + 1)).sleeps.length = k + 1 ∧
        ∀ i, i ≤ k → ∀ r, t (a + i) = .response r →
          (loopAux bf t a (f + 1)).sleeps.get? i =
            some (backoffWait bf (a + i) r.retryAfter) := by
  intro k
  induction k with
  | zero =>
    intro f a _hk hret hnext
    obtain ⟨r, hr, hretr⟩ := hret 0 le_rfl
    have hr' : t a = .response r := by simpa using hr
    obtain ⟨r1, h1, h2xx⟩ := hnext
    have h1' : t (a + 1) = .response r1 := by
      rwa [show a + 0 + 1 = a + 1 by omega] at h1
    have hrest : loopAux bf t (a + 1) f = ⟨.ok r1.body, 1, []⟩ := by
      cases f with
      | zero => simp [loopAux, h1', h2xx]
      | succ f2 => simp [loopAux, h1', h2xx]
    have hstep : loopAux bf t a (f + 1) =
        ⟨(loopAux bf t (a + 1) f).result,
          (loopAux bf t (a + 1) f).requests + 1,
          backoffWait bf a r.retryAfter ::
            (loopAux bf t (a + 1) f).sleeps⟩ := by
      simp only [loopAux, hr']
      rw [if_neg (not_2xx_of_retryable hretr), if_pos hretr]
    rw [hstep, hrest]
    refine ⟨rfl, rfl, ?_⟩
    intro i hi r2 hr2
    have hi0 : i = 0 := Nat.le_zero.mp hi
    subst hi0
    rw [hr] at hr2
    cases hr2
    simp
  | succ k ih =>
    intro f a hk hret hnext
    obtain ⟨f2, rfl⟩ : ∃ f2, f = f2 + 1 := ⟨f - 1, by omega⟩
    obtain ⟨r, hr, hretr⟩ := hret 0 (by omega)
    have hr' : t a = .response r := by simpa using hr
    have hret2 : ∀ i, i ≤ k → ∃ r2, t (a + 1 + i) = .response r2 ∧
        isRetryableStatus r2.status = true := by
      intro i hi
      obtain ⟨r2, hr2, hretr2⟩ := hret (i + 1) (by omega)
      exact ⟨r2, by rwa [show a + (i + 1) = a + 1 + i by omega] at hr2, hretr2⟩
    have hnext2 : ∃ r1, t (a + 1 + k + 1) = .response r1 ∧
        200 ≤ r1.status ∧ r1.status < 300 := by
      obtain ⟨r1, h1, h2xx⟩ := hnext
      exact ⟨r1, by rwa [show a + (k + 1) + 1 = a + 1 + k + 1 by omega] at h1,
        h2xx⟩
    obtain ⟨ihreq, ihlen, ihget⟩ := ih f2 (a + 1) (by omega) hret2 hnext2
    have hstep : loopAux bf t a (f2 + 1 + 1) =
        ⟨(loopAux bf t (a + 1) (f2 + 1)).result,
          (loopAux bf t (a + 1) (f2 + 1)).requests + 1,
          backoffWait bf a r.retryAfter ::
            (loopAux bf t (a + 1) (f2 + 1)).sleeps⟩ := by
      simp only [loopAux, hr']
      rw [if_neg (not_2xx_of_retryable hretr), if_pos hretr]
    rw [hstep]
    refine ⟨?_, ?_, ?_⟩
    · show (loopAux bf t (a + 1) (f2 + 1)).requests + 1 = k + 1 + 2
      omega
    · show (backoffWait bf a r.retryAfter ::
          (loopAux bf t (a + 1) (f2 + 1)).sleeps).length = k + 1 + 1
      simp [ihlen]
    · intro i hi r2 hr2
      show (backoffWait bf a r.retryAfter ::
          (loopAux bf t (a + 1) (f2 + 1)).sleeps).get? i =
        some (backoffWait bf (a + i) r2.retryAfter)
      cases i with
      | zero =>
        rw [hr] at hr2
        cases hr2
        simp
      | succ j =>
        have hj : j ≤ k := by omega
        have hr2' : t (a + 1 + j) = .response r2 := by
          rwa [show a + (j + 1) = a + 1 + j by omega] at hr2
        have hg := ihget j hj r2 hr2'
        simpa [show a + (j + 1) = a + 1 + j by omega] using hg

/- ---------------------------------------------------------------------
Concrete fixtures, mirroring the mock data of tests/test_riot_client.py
--------------------------------------------------------------------- -/

/-- The test configuration (api key "dummy-key", region "asia", platforms
kr / ap). -/
def cfgW : RiotAPIConfig := ⟨"dummy-key", "asia", [("lol", "kr"), ("tft", "ap")]⟩

/-- The test client: `max_retries = 2`, `backoff_factor = 0.1`. -/
def clientW : RiotAPIClient := ⟨cfgW, 2, 1 / 10, 1⟩

/-- A client with `max_retries = 1` and `backoff_factor = 1`. -/
def clientOne : RiotAPIClient := ⟨cfgW, 1, 1, 1⟩

/-- A 503 response. -/
def r503 : Response :=
  ⟨503, none, .obj [("status", .str "server-error")], "server-error"⟩

/-- A transport answering 503 forever. -/
def t503 : Nat → TransportEvent := fun _ => .response r503

/-- A 404 response. -/
def r404 : Response := ⟨404, none, .null, "not-found"⟩

/-- A transport answering 404. -/
def t404 : Nat → TransportEvent := fun _ => .response r404

/-- A 200 response with a JSON body. -/
def r200 : Response := ⟨200, none, .obj [("ok", .bool true)], "ok"⟩

/-- A transport answering 200. -/
def t200 : Nat → TransportEvent := fun _ => .response r200

/-- A 429 response carrying `Retry-After: 7`. -/
def r429 : Response :=
  ⟨429, some "7", .obj [("status", .str "rate-limited")], "rate-limited"⟩

/-- A transport answering 429 once, then 200. -/
def t429then200 : Nat → TransportEvent := fun i =>
  if i = 0 then .response r429 else .response r200

/-- A transport answering 429 (`Retry-After: 7`), then 503, then 200 —
retryable failures at attempt indices 0 and 1. -/
def t429_503_200 : Nat → TransportEvent := fun i =>
  if i = 0 then .response r429
  else if i = 1 then .response r503
  else .response r200

/-- A 429 response carrying `Retry-After: 0`, smaller than the exponential
backoff. -/
def r429zero : Response := ⟨429, some "0", .str "rl", "rl"⟩

/-- A transport answering the `Retry-After: 0` 429 once, then 200. -/
def t429zeroThen200 : Nat → TransportEvent := fun i =>
  if i = 0 then .response r429zero else .response r200

/-- A 501 response — a 5xx status outside the retryable set of the spec. -/
def r501 : Response := ⟨501, none, .null, "not-implemented"⟩

/-- A transport answering 501. -/
def t501 : Nat → TransportEvent := fun _ => .response r501

/-- An empty environment. -/
def envEmpty : String → Option String := fun _ => none

/-- A `RiotConfig` with the source defaults and a dummy key. -/
def cfgPy : RiotConfig := ⟨"dummy-key", "asia", "kr", "ap", 10, 3⟩

/-- A 200 `requests` response with a JSON Content-Type. -/
def rPy200 : PyResponse :=
  ⟨200, none, "application/json; charset=utf-8", .obj [("ok", .bool true)],
    "ok-body"⟩

/-- A transport answering the JSON 200 response. -/
def tPy200 : Nat → PyEvent := fun _ => .response rPy200

/- ---------------------------------------------------------------------
Claim theorems
--------------------------------------------------------------------- -/

/-- C1: when the transport yields retryable responses on every one of the
first `max_retries + 1` attempts, `get`/`_request` raises an error after
issuing exactly `max_retries + 1` HTTP requests, never more and never
fewer. -/
theorem c1_exhausts_after_max_retries_plus_one (c : RiotAPIClient)
    (t : Nat → TransportEvent)
    (h : ∀ i, i ≤ c.max_retries →
      ∃ r, t i = .response r ∧ isRetryableStatus r.status = true) :
    (RiotAPIClient_request c t).requests = c.max_retries + 1 ∧
      ∃ s b, (RiotAPIClient_request c t).result =
        .error (.retryableServerError s b) := by
  obtain ⟨r, _hr, hreq, hres⟩ := loopAux_all_retryable c.backoff_factor t
    c.max_retries 0 (fun i _hi1 hi2 => h i (by omega))
  exact ⟨hreq, ⟨r.status, r.bodyText, hres⟩⟩

/-- Witness for C1: three 503 responses with `max_retries = 2` raise after
exactly three requests. -/
theorem c1_witness :
    (RiotAPIClient_request clientW t503).requests = clientW.max_retries + 1 ∧
      ∃ s b, (RiotAPIClient_request clientW t503).result =
        .error (.retryableServerError s b) :=
  c1_exhausts_after_max_retries_plus_one clientW t503
    (fun _i _hi => ⟨r503, rfl, rfl⟩)

/-- C2: a non-2xx, non-retryable response makes `get`/`_request` raise a
fatal client error carrying status code and body text immediately: a single
HTTP request is issued and no sleep occurs. -/
theorem c2_fatal_raises_immediately (c : RiotAPIClient)
    (t : Nat → TransportEvent) (r : Response) (ht : t 0 = .response r)
    (hn2 : ¬(200 ≤ r.status ∧ r.status < 300))
    (hnr : isRetryableStatus r.status = false) :
    RiotAPIClient_request c t =
      ⟨.error (.fatalClientError r.status r.bodyText), 1, []⟩ := by
  unfold RiotAPIClient_request
  cases c.max_retries with
  | zero => simp [loopAux, ht, hn2, hnr]
  | succ f => simp [loopAux, ht, hn2, hnr]

/-- Witness for C2: a 404 raises at once with zero sleeps. -/
theorem c2_witness :
    RiotAPIClient_request clientW t404 =
      ⟨.error (.fatalClientError 404 "not-found"), 1, []⟩ :=
  c2_fatal_raises_immediately clientW t404 r404 rfl (by decide) rfl

/-- C4: with every attempt answered by a retryable response, the error
raised once the budget is exhausted carries the status code and the body
text of the last failing response. -/
theorem c4_exhaustion_carries_status_and_body (c : RiotAPIClient)
    (t : Nat → TransportEvent) (rlast : Response)
    (h : ∀ i, i ≤ c.max_retries →
      ∃ r, t i = .response r ∧ isRetryableStatus r.status = true)
    (hlast : t c.max_retries = .response rlast) :
    (RiotAPIClient_request c t).result =
      .error (.retryableServerError rlast.status rlast.bodyText) := by
  obtain ⟨r, hr, _hreq, hres⟩ := loopAux_all_retryable c.backoff_factor t
    c.max_retries 0 (fun i _hi1 hi2 => h i (by omega))
  rw [Nat.zero_add] at hr
  rw [hlast] at hr
  cases hr
  exact hres

/-- Witness for C4: the exhausted 503 run surfaces status 503 and the body
text. -/
theorem c4_witness :
    (RiotAPIClient_request clientW t503).result =
      .error (.retryableServerError 503 "server-error") :=
  c4_exhaustion_carries_status_and_body clientW t503 r503
    (fun _i _hi => ⟨r503, rfl, rfl⟩) rfl

/-- C6: `get` with a Platform routing mode naming an unsupported game fails
with the validation error immediately: zero HTTP requests issued, zero
sleeps. -/
theorem c6_unsupported_game_no_network (c : RiotAPIClient) (path g : String)
    (t : Nat → TransportEvent)
    (h : c.config.platform_by_game.lookup g = none) :
    RiotAPIClient_get c path (.platform g) t =
      ⟨.error (.configError ("unsupported game: " ++ g)), 0, []⟩ := by
  simp only [RiotAPIClient_get, resolveBaseUrl, h]

/-- Witness for C6: game "valorant" is rejected with no network call. -/
theorem c6_witness :
    RiotAPIClient_get clientW "/lol/test-endpoint" (.platform "valorant")
        t200 =
      ⟨.error (.configError ("unsupported game: " ++ "valorant")), 0, []⟩ :=
  c6_unsupported_game_no_network clientW "/lol/test-endpoint" "valorant" t200
    rfl

/-- C7: an absent or empty api key is a fatal ConfigError at configuration
construction time, both from the environment and from explicit fields;
construction involves no transport at all. -/
theorem c7_missing_api_key_fatal (env : String → Option String)
    (region : String) (platform_by_game : List (String × String))
    (h : env "RIOT_API_KEY" = none ∨ env "RIOT_API_KEY" = some "") :
    (∃ m, RiotAPIConfig.fromEnvironment env = .error (.configError m)) ∧
      (∃ m, RiotAPIConfig.make "" region platform_by_game =
        .error (.configError m)) := by
  refine ⟨?_, ⟨"missing api_key", by simp [RiotAPIConfig.make]⟩⟩
  rcases h with h | h
  · exact ⟨"RIOT_API_KEY is not set",
      by simp [RiotAPIConfig.fromEnvironment, h]⟩
  · exact ⟨"RIOT_API_KEY is empty",
      by simp [RiotAPIConfig.fromEnvironment, h]⟩

/-- Witness for C7: the empty environment and the empty explicit key both
fail. -/
theorem c7_witness :
    (∃ m, RiotAPIConfig.fromEnvironment envEmpty = .error (.configError m)) ∧
      (∃ m, RiotAPIConfig.make "" "asia" [("lol", "kr"), ("tft", "ap")] =
        .error (.configError m)) :=
  c7_missing_api_key_fatal envEmpty "asia" [("lol", "kr"), ("tft", "ap")]
    (Or.inl rfl)

/-- C8: a 2xx response on the first attempt: zero sleeps, one request, and
the JSON body fed to the transport is returned structurally unchanged. -/
theorem c8_success_roundtrip (c : RiotAPIClient) (t : Nat → TransportEvent)
    (r : Response) (ht : t 0 = .response r)
    (h2 : 200 ≤ r.status ∧ r.status < 300) :
    RiotAPIClient_request c t = ⟨.ok r.body, 1, []⟩ := by
  unfold RiotAPIClient_request
  cases c.max_retries with
  | zero => simp [loopAux, ht, h2]
  | succ f => simp [loopAux, ht, h2]

/-- Witness for C8: the 200 mock returns its JSON body after one request
and no sleep. -/
theorem c8_witness :
    RiotAPIClient_request clientW t200 =
      ⟨.ok (.obj [("ok", .bool true)]), 1, []⟩ :=
  c8_success_roundtrip clientW t200 r200 rfl (by decide)

/-- C9: with a non-negative backoff factor, no execution of the loop issues
more than `max_retries + 1` requests, and every duration passed to sleep —
including waits taken from a `Retry-After` header — is non-negative. -/
theorem c9_attempt_and_wait_invariants (c : RiotAPIClient)
    (t : Nat → TransportEvent) (hbf : 0 ≤ c.backoff_factor) :
    (RiotAPIClient_request c t).requests ≤ c.max_retries + 1 ∧
      ∀ w ∈ (RiotAPIClient_request c t).sleeps, 0 ≤ w :=
  ⟨loopAux_requests_le c.backoff_factor t c.max_retries 0,
   fun w hw => loopAux_sleeps_nonneg c.backoff_factor t hbf c.max_retries 0
     w hw⟩

/-- Witness for C9 on the 429-then-200 transport. -/
theorem c9_witness :
    (RiotAPIClient_request clientW t429then200).requests ≤
        clientW.max_retries + 1 ∧
      ∀ w ∈ (RiotAPIClient_request clientW t429then200).sleeps, 0 ≤ w :=
  c9_attempt_and_wait_invariants clientW t429then200 (by norm_num [clientW])

/-- Counterexample for C3 as stated: on a 429 carrying the parseable header
`Retry-After: 0` with `backoff_factor = 1`, the wait slept is
`max(0, 1 * 2 ^ 0) = 1`, not the header value 0 — the header does not
simply replace the exponential value. -/
theorem c3_counterexample :
    parseRetryAfter "0" = some 0 ∧
      (RiotAPIClient_request clientOne t429zeroThen200).sleeps = [(1 : ℚ)] ∧
      (1 : ℚ) ≠ (0 : ℚ) := by
  refine ⟨by decide, ?_, by norm_num⟩
  have hrun : (RiotAPIClient_request clientOne t429zeroThen200).sleeps =
      [backoffWait 1 0 (some "0")] := by
    show (loopAux 1 t429zeroThen200 0 (0 + 1)).sleeps = _
    have h0 : t429zeroThen200 0 = .response r429zero := rfl
    have h1 : t429zeroThen200 (0 + 1) = .response r200 := rfl
    have hn2 : ¬(200 ≤ r429zero.status ∧ r429zero.status < 300) := by decide
    have hret : isRetryableStatus r429zero.status = true := by decide
    have h2 : 200 ≤ r200.status ∧ r200.status < 300 := by decide
    simp only [loopAux, h0]
    rw [if_neg hn2, if_pos hret]
    simp only [loopAux, h1, if_pos h2]
    rfl
  rw [hrun]
  have hp : parseRetryAfter "0" = some 0 := by decide
  simp only [backoffWait, hp]
  congr 1
  norm_num

/-- C3 (amended): for every retryable response received while attempts
remain — at any 0-based attempt index `i` — `get`/`_request` performs
exactly one sleep before the next attempt (one sleep per failed attempt, in
order), and the wait equals `max(Retry-After, backoff_factor * 2 ^ i)` when
the header is present and parseable, else `backoff_factor * 2 ^ i`.  Stated
for a run whose attempts 0..k all fail retryably before a 2xx at attempt
`k + 1`. -/
theorem c3_single_backoff_wait (c : RiotAPIClient) (t : Nat → TransportEvent)
    (k : Nat) (hk : k < c.max_retries)
    (hret : ∀ i, i ≤ k → ∃ r, t i = .response r ∧
      isRetryableStatus r.status = true)
    (hnext : ∃ r1, t (k + 1) = .response r1 ∧ 200 ≤ r1.status ∧
      r1.status < 300) :
    (RiotAPIClient_request c t).requests = k + 2 ∧
      (RiotAPIClient_request c t).sleeps.length = k + 1 ∧
      ∀ i, i ≤ k → ∀ r, t i = .response r →
        (RiotAPIClient_request c t).sleeps.get? i =
          some (match r.retryAfter with
            | none => c.backoff_factor * 2 ^ i
            | some hd =>
              match parseRetryAfter hd with
              | none => c.backoff_factor * 2 ^ i
              | some n => max (n : ℚ) (c.backoff_factor * 2 ^ i)) := by
  obtain ⟨f, hf⟩ : ∃ f, c.max_retries = f + 1 :=
    ⟨c.max_retries - 1, by omega⟩
  have hkf : k ≤ f := by omega
  have hret0 : ∀ i, i ≤ k → ∃ r, t (0 + i) = .response r ∧
      isRetryableStatus r.status = true := by
    intro i hi
    simpa using hret i hi
  have hnext0 : ∃ r1, t (0 + k + 1) = .response r1 ∧ 200 ≤ r1.status ∧
      r1.status < 300 := by
    simpa using hnext
  obtain ⟨hreq, hlen, hget⟩ :=
    loopAux_retryable_prefix c.backoff_factor t k f 0 hkf hret0 hnext0
  unfold RiotAPIClient_request
  rw [hf]
  refine ⟨hreq, hlen, ?_⟩
  intro i hi r hr
  have hg := hget i hi r (by simpa using hr)
  rw [hg]
  cases hra : r.retryAfter with
  | none => simp [backoffWait, hra]
  | some hd =>
    cases hp : parseRetryAfter hd with
    | none => simp [backoffWait, hra, hp]
    | some n => simp [backoffWait, hra, hp]

/-- Witness for C3 (amended): 429 (`Retry-After: 7`), then 503, then 200
with `max_retries = 2`: three requests, two sleeps, and the sleep of
attempt index 1 uses the exponential `2 ^ 1`. -/
theorem c3_witness :
    (RiotAPIClient_request clientW t429_503_200).requests = 1 + 2 ∧
      (RiotAPIClient_request clientW t429_503_200).sleeps.length = 1 + 1 ∧
      (RiotAPIClient_request clientW t429_503_200).sleeps.get? 1 =
        some (match r503.retryAfter with
          | none => clientW.backoff_factor * 2 ^ 1
          | some hd =>
            match parseRetryAfter hd with
            | none => clientW.backoff_factor * 2 ^ 1
            | some n => max (n : ℚ) (clientW.backoff_factor * 2 ^ 1)) := by
  obtain ⟨h1, h2, h3⟩ := c3_single_backoff_wait clientW t429_503_200 1
    (by decide)
    (by
      intro i hi
      rcases Nat.lt_or_ge i 1 with hlt | hge
      · have hi0 : i = 0 := by omega
        subst hi0
        exact ⟨r429, rfl, rfl⟩
      · have hi1 : i = 1 := by omega
        subst hi1
        exact ⟨r503, rfl, rfl⟩)
    ⟨r200, rfl, by decide⟩
  exact ⟨h1, h2, h3 1 le_rfl r503 rfl⟩

/-- C5: with attempts remaining, a second request is issued exactly when the
first response's status lies in {429, 500, 502, 503, 504}; every other
status — 2xx, a fatal 4xx, or an unlisted 5xx such as 501 — ends the loop
after a single request. -/
theorem c5_retryable_statuses_characterized (c : RiotAPIClient)
    (t : Nat → TransportEvent) (r : Response) (hmr : 1 ≤ c.max_retries)
    (ht : t 0 = .response r) :
    (1 < (RiotAPIClient_request c t).requests ↔
      (r.status = 429 ∨ r.status = 500 ∨ r.status = 502 ∨ r.status = 503 ∨
        r.status = 504)) := by
  obtain ⟨f, hf⟩ : ∃ f, c.max_retries = f + 1 :=
    ⟨c.max_retries - 1, by omega⟩
  unfold RiotAPIClient_request
  rw [hf]
  by_cases h2 : 200 ≤ r.status ∧ r.status < 300
  · have hnm : ¬(r.status = 429 ∨ r.status = 500 ∨ r.status = 502 ∨
        r.status = 503 ∨ r.status = 504) := by omega
    simp only [loopAux, ht, if_pos h2]
    refine iff_of_false ?_ hnm
    show ¬(1 < 1)
    omega
  · by_cases hret : isRetryableStatus r.status = true
    · have hmem : r.status = 429 ∨ r.status = 500 ∨ r.status = 502 ∨
          r.status = 503 ∨ r.status = 504 := by
        simp only [isRetryableStatus, Bool.or_eq_true, beq_iff_eq] at hret
        omega
      have hret2 : isRetryableStatus r.status = true := by
        simp only [isRetryableStatus, Bool.or_eq_true, beq_iff_eq]
        omega
      have hpos := loopAux_requests_pos c.backoff_factor t f (0 + 1)
      simp only [loopAux, ht]
      rw [if_neg h2, if_pos hret2]
      refine iff_of_true ?_ hmem
      show 1 < (loopAux c.backoff_factor t (0 + 1) f).requests + 1
      omega
    · have hretf : isRetryableStatus r.status = false := by
        simpa using hret
      have hnm : ¬(r.status = 429 ∨ r.status = 500 ∨ r.status = 502 ∨
          r.status = 503 ∨ r.status = 504) := by
        intro hd
        have hcontra : isRetryableStatus r.status = true := by
          simp only [isRetryableStatus, Bool.or_eq_true, beq_iff_eq]
          omega
        simp [hcontra] at hretf
      simp only [loopAux, ht]
      rw [if_neg h2, if_neg (by simp [hretf])]
      refine iff_of_false ?_ hnm
      show ¬(1 < 1)
      omega

/-- Witness for C5: status 501, a 5xx outside the retryable set, does not
trigger a second request. -/
theorem c5_witness :
    (1 < (RiotAPIClient_request clientW t501).requests ↔
      (r501.status = 429 ∨ r501.status = 500 ∨ r501.status = 502 ∨
        r501.status = 503 ∨ r501.status = 504)) :=
  c5_retryable_statuses_characterized clientW t501 r501 (by decide) rfl

/-- C10: on a 2xx response, `_request` of the source `RiotClient` returns
the parsed JSON body exactly when the Content-Type header contains
"application/json", and the raw body text otherwise — one request, no
sleeps. -/
theorem c10_content_type_dispatch (cfg : RiotConfig) (t : Nat → PyEvent)
    (r : PyResponse) (hmr : 1 ≤ cfg.max_retries) (ht : t 0 = .response r)
    (h2 : 200 ≤ r.status_code ∧ r.status_code < 300) :
    (RiotClient_request cfg t).result =
      .ok (if containsSub "application/json" r.content_type then
        .json r.body_json else .text r.text) ∧
      (RiotClient_request cfg t).requests = 1 ∧
      (RiotClient_request cfg t).sleeps = [] := by
  obtain ⟨f, hf⟩ : ∃ f, cfg.max_retries = f + 1 :=
    ⟨cfg.max_retries - 1, by omega⟩
  unfold RiotClient_request
  rw [hf]
  have h429 : (r.status_code == 429) = false := by
    simp only [beq_eq_false_iff_ne, ne_eq]
    omega
  have h5 : ¬(500 ≤ r.status_code ∧ r.status_code < 600) := by omega
  have hok : r.ok = true := by
    simp only [PyResponse.ok, decide_eq_true_eq]
    omega
  by_cases hct : containsSub "application/json" r.content_type = true
  · cases f with
    | zero => simp [RiotClient_requestAux, ht, h429, h5, hok, hct]
    | succ f2 => simp [RiotClient_requestAux, ht, h429, h5, hok, hct]
  · cases f with
    | zero => simp [RiotClient_requestAux, ht, h429, h5, hok, hct]
    | succ f2 => simp [RiotClient_requestAux, ht, h429, h5, hok, hct]

/-- Witness for C10: a 200 with Content-Type
"application/json; charset=utf-8" returns the parsed JSON body. -/
theorem c10_witness :
    (RiotClient_request cfgPy tPy200).result =
      .ok (if containsSub "application/json" rPy200.content_type then
        .json rPy200.body_json else .text rPy200.text) ∧
      (RiotClient_request cfgPy tPy200).requests = 1 ∧
      (RiotClient_request cfgPy tPy200).sleeps = [] :=
  c10_content_type_dispatch cfgPy tPy200 rPy200 (by decide) rfl (by decide)
